import Mathlib

/-!
Shallow embedding of the SPDY frame codec and stream state machine
(repository `chendo/spdy`, files `spdy.go`, the stream/connection file, and
`spdy3/conn.go`), together with theorems settling the specification claims.

Bytes are modelled as `List Nat` (each element a Go `byte`, produced by
truncating mod 256 exactly where Go performs a `byte(...)` conversion).
Go runtime panics (slice index out of range, `panic(err)`) are modelled as
an explicit outcome: parsers and encoders return `Except ParseErr _` with a
dedicated `indexOutOfRange` error, stream state transformers return
`Option _` with `none` for a panic.
-/

namespace Spdy

/-- Go `byte(x)` conversion: truncate to the low 8 bits. -/
def byteOf (x : Nat) : Nat := x % 256

/-- Embeds `bytesToUint16` from spdy.go, applied to the two bytes of the slice. -/
def bytesToUint16 (b0 b1 : Nat) : Nat := b0 * 256 + b1

/-- Embeds `bytesToUint24` from spdy.go, applied to the three bytes of the slice. -/
def bytesToUint24 (b0 b1 b2 : Nat) : Nat := b0 * 65536 + b1 * 256 + b2

/-- Embeds `bytesToUint32` from spdy.go, applied to the four bytes of the slice. -/
def bytesToUint32 (b0 b1 b2 b3 : Nat) : Nat :=
  b0 * 16777216 + b1 * 65536 + b2 * 256 + b3

/-- Embeds `bytesToUint31` from spdy.go: top bit of the first byte is cleared. -/
def bytesToUint31 (b0 b1 b2 b3 : Nat) : Nat :=
  (b0 &&& 0x7f) * 16777216 + b1 * 65536 + b2 * 256 + b3

/-- Error taxonomy of the codec surface (`IncorrectDataLength`,
`InvalidField` in spdy.go), plus `indexOutOfRange` standing for the Go
runtime panic raised when a parse or encode touches a slice index that is
out of range. -/
inductive ParseErr
  | incorrectDataLength (got expected : Nat)
  | invalidField (field : String) (got expected : Nat)
  | indexOutOfRange
deriving DecidableEq, Repr

/-- Read byte `i` of the input; out-of-range access is the Go panic. -/
def rd (data : List Nat) (i : Nat) : Except ParseErr Nat :=
  match data.get? i with
  | some b => .ok b
  | none => .error .indexOutOfRange

/-- Go `l[i] = v` on a slice of length `l.length`: out of range panics
(`indexOutOfRange`). -/
def setAt (l : List Nat) (i : Nat) (v : Nat) : Except ParseErr (List Nat) :=
  if i < l.length then .ok (l.set i v) else .error .indexOutOfRange

/-! ### RST_STREAM (spdy.go lines 311-383) -/

structure RstStreamFrame where
  Version : Nat
  Flags : Nat
  StreamID : Nat
  StatusCode : Nat
deriving DecidableEq, Repr

/-- Embeds `RstStreamFrame.Parse` from spdy.go: note that the size check demands
`len(data) == 8` while the field decoding reads `data[8:16]`. -/
def RstStreamFrame.parse (data : List Nat) : Except ParseErr RstStreamFrame := do
  let length := data.length
  if length ≠ 8 then
    throw (.incorrectDataLength length 8)
  let d0 ← rd data 0
  if d0 &&& 0x80 = 0 then
    throw (.invalidField "Control bit" 0 1)
  let d2 ← rd data 2
  let d3 ← rd data 3
  if d2 ≠ 0 ∨ d3 ≠ 3 then
    throw (.invalidField "Type" (bytesToUint16 d2 d3) 3)
  let d8 ← rd data 8
  if d8 >>> 7 ≠ 0 then
    throw (.invalidField "Unused" 1 0)
  let d5 ← rd data 5
  let d6 ← rd data 6
  let d7 ← rd data 7
  if bytesToUint24 d5 d6 d7 ≠ 8 then
    throw (.invalidField "Length" (bytesToUint24 d5 d6 d7) 8)
  let d1 ← rd data 1
  let d4 ← rd data 4
  let d9 ← rd data 9
  let d10 ← rd data 10
  let d11 ← rd data 11
  let d12 ← rd data 12
  let d13 ← rd data 13
  let d14 ← rd data 14
  let d15 ← rd data 15
  return { Version := (d0 &&& 0x7f) * 256 + d1
           Flags := d4
           StreamID := bytesToUint31 d8 d9 d10 d11
           StatusCode := bytesToUint32 d12 d13 d14 d15 }

/-- Embeds `RstStreamFrame.Bytes` from spdy.go: allocates `make([]byte, 8)` and
then assigns `out[0]` through `out[15]`; the assignments at indices 8-15
are out of range for the 8-byte slice (a Go runtime panic, here `indexOutOfRange`). -/
def RstStreamFrame.bytes (f : RstStreamFrame) : Except ParseErr (List Nat) := do
  let out := List.replicate 8 0
  let out ← setAt out 0 (0x80 ||| byteOf (f.Version >>> 8))
  let out ← setAt out 1 (byteOf f.Version)
  let out ← setAt out 2 0
  let out ← setAt out 3 3
  let out ← setAt out 4 (byteOf f.Flags)
  let out ← setAt out 5 0
  let out ← setAt out 6 0
  let out ← setAt out 7 8
  let out ← setAt out 8 (byteOf (f.StreamID >>> 24) &&& 0x7f)
  let out ← setAt out 9 (byteOf (f.StreamID >>> 16))
  let out ← setAt out 10 (byteOf (f.StreamID >>> 8))
  let out ← setAt out 11 (byteOf f.StreamID)
  let out ← setAt out 12 (byteOf (f.StatusCode >>> 24))
  let out ← setAt out 13 (byteOf (f.StatusCode >>> 16))
  let out ← setAt out 14 (byteOf (f.StatusCode >>> 8))
  let out ← setAt out 15 (byteOf f.StatusCode)
  return out

/-! ### SETTINGS (spdy.go lines 388-497) -/

structure Setting where
  Flags : Nat
  ID : Nat
  Value : Nat
deriving DecidableEq, Repr

structure SettingsFrame where
  Version : Nat
  Flags : Nat
  Settings : List Setting
deriving DecidableEq, Repr

/-- The decode loop of `SettingsFrame.Parse`: one `Setting` per 8 bytes
starting at `offset`. -/
def parseSettingList (data : List Nat) (offset : Nat) :
    Nat → Except ParseErr (List Setting)
  | 0 => .ok []
  | n + 1 => do
    let b0 ← rd data offset
    let b1 ← rd data (offset + 1)
    let b2 ← rd data (offset + 2)
    let b3 ← rd data (offset + 3)
    let b4 ← rd data (offset + 4)
    let b5 ← rd data (offset + 5)
    let b6 ← rd data (offset + 6)
    let b7 ← rd data (offset + 7)
    let rest ← parseSettingList data (offset + 8) n
    return { Flags := b0, ID := bytesToUint24 b1 b2 b3
             Value := bytesToUint32 b4 b5 b6 b7 } :: rest

/-- Embeds `SettingsFrame.Parse` from spdy.go.  Note that the source computes
`numSettings` by reading `data[8:12]` BEFORE any size check, so every input
shorter than 12 bytes causes an out-of-range slice access; the subsequent
`length < 12` branch is unreachable (in the Go source that branch even
refers to an undefined identifier `size`; since it is dead code we render
it with `length`). -/
def SettingsFrame.parse (data : List Nat) : Except ParseErr SettingsFrame := do
  let length := data.length
  let n8 ← rd data 8
  let n9 ← rd data 9
  let n10 ← rd data 10
  let n11 ← rd data 11
  let numSettings := bytesToUint32 n8 n9 n10 n11
  if length < 12 then
    throw (.incorrectDataLength length 12)
  let d5 ← rd data 5
  let d6 ← rd data 6
  let d7 ← rd data 7
  if length ≠ 8 + bytesToUint24 d5 d6 d7 then
    throw (.incorrectDataLength length (8 + bytesToUint24 d5 d6 d7))
  if length < 12 + 8 * numSettings then
    throw (.incorrectDataLength length (12 + 8 * numSettings))
  let d0 ← rd data 0
  if d0 &&& 0x80 = 0 then
    throw (.invalidField "Control bit" 0 1)
  let d2 ← rd data 2
  let d3 ← rd data 3
  if d2 ≠ 0 ∨ d3 ≠ 4 then
    throw (.invalidField "Type" (d2 * 256 + d3) 4)
  let d1 ← rd data 1
  let d4 ← rd data 4
  let settings ← parseSettingList data 12 numSettings
  return { Version := (d0 &&& 0x7f) * 256 + d1, Flags := d4
           Settings := settings }

/-! ### WINDOW_UPDATE (spdy.go lines 773-843) -/

structure WindowUpdateFrame where
  Version : Nat
  StreamID : Nat
  DeltaWindowSize : Nat
deriving DecidableEq, Repr

/-- Embeds `WindowUpdateFrame.Parse` from spdy.go.  The unused-bit check reads
`data[12]`, which is out of range on a 12-byte input even though the size
check admits exactly 12 bytes; and the decoded delta is masked with `0x7f`
(7 bits) rather than having only the top bit cleared. -/
def WindowUpdateFrame.parse (data : List Nat) :
    Except ParseErr WindowUpdateFrame := do
  let length := data.length
  if length < 12 then
    throw (.incorrectDataLength length 12)
  let d0 ← rd data 0
  if d0 &&& 0x80 = 0 then
    throw (.invalidField "Control bit" 0 1)
  let d2 ← rd data 2
  let d3 ← rd data 3
  if d2 ≠ 0 ∨ d3 ≠ 9 then
    throw (.invalidField "Type" (bytesToUint16 d2 d3) 9)
  let d8 ← rd data 8
  let d12 ← rd data 12
  if (d8 >>> 7) ||| (d12 >>> 7) ≠ 0 then
    throw (.invalidField "Unused" 1 0)
  let d5 ← rd data 5
  let d6 ← rd data 6
  let d7 ← rd data 7
  if bytesToUint24 d5 d6 d7 ≠ 8 then
    throw (.invalidField "Length" (bytesToUint24 d5 d6 d7) 8)
  let d1 ← rd data 1
  let d9 ← rd data 9
  let d10 ← rd data 10
  let d11 ← rd data 11
  let d13 ← rd data 13
  let d14 ← rd data 14
  let d15 ← rd data 15
  return { Version := (d0 &&& 0x7f) * 256 + d1
           StreamID := bytesToUint31 d8 d9 d10 d11
           DeltaWindowSize := bytesToUint32 d12 d13 d14 d15 &&& 0x7f }

/-- Embeds `WindowUpdateFrame.Bytes` from spdy.go (lines 813-834, the method that
matches the `WindowUpdateFrame` fields): allocates `make([]byte, 12)` and
assigns `out[0]` through `out[15]`; indices 12-15 are out of range (Go
runtime panic, here `indexOutOfRange`).  It also writes type code 8 where the parser
demands 9. -/
def WindowUpdateFrame.bytes (f : WindowUpdateFrame) : Except ParseErr (List Nat) := do
  let out := List.replicate 12 0
  let out ← setAt out 0 (0x80 ||| byteOf (f.Version >>> 8))
  let out ← setAt out 1 (byteOf f.Version)
  let out ← setAt out 2 0
  let out ← setAt out 3 8
  let out ← setAt out 4 0
  let out ← setAt out 5 0
  let out ← setAt out 6 0
  let out ← setAt out 7 8
  let out ← setAt out 8 (byteOf (f.StreamID >>> 24) &&& 0x7f)
  let out ← setAt out 9 (byteOf (f.StreamID >>> 16))
  let out ← setAt out 10 (byteOf (f.StreamID >>> 8))
  let out ← setAt out 11 (byteOf f.StreamID)
  let out ← setAt out 12 (byteOf (f.DeltaWindowSize >>> 24) &&& 0x7f)
  let out ← setAt out 13 (byteOf (f.DeltaWindowSize >>> 16))
  let out ← setAt out 14 (byteOf (f.DeltaWindowSize >>> 8))
  let out ← setAt out 15 (byteOf f.DeltaWindowSize)
  return out

/-! ### DATA (spdy.go lines 986-1012) -/

structure DataFrame where
  StreamID : Nat
  Flags : Nat
  Data : List Nat
deriving DecidableEq, Repr

/-- Embeds `DataFrame.Parse` from spdy.go.  The control-bit check is
`data[0]&0x80 == 1`, which can never hold (the conjunction is either 0 or
0x80), so inputs with the control bit set are not rejected.  The length
field is read as a 16-bit value at `data[2:4]`. -/
def DataFrame.parse (data : List Nat) : Except ParseErr DataFrame := do
  let length := data.length
  if length < 8 then
    throw (.incorrectDataLength length 8)
  let d2 ← rd data 2
  let d3 ← rd data 3
  if length < 8 + bytesToUint16 d2 d3 then
    throw (.incorrectDataLength length (8 + bytesToUint16 d2 d3))
  let d0 ← rd data 0
  if d0 &&& 0x80 = 1 then
    throw (.invalidField "Control bit" 1 0)
  let d1 ← rd data 1
  let d4 ← rd data 4
  return { StreamID := bytesToUint31 d0 d1 d2 d3
           Flags := d4
           Data := (data.drop 8).take (bytesToUint16 d2 d3) }

/-! ### Stream state machine (the stream/connection source file)

The `stream` struct's observable state and its methods `Write`,
`WriteHeader`, `receiveFrame` and the completion phase of `run`, plus the
`queue` type.  Sends on the stream's `output` channel are recorded by
appending the sent frame to an `output` list, in send order. -/

/-- Modelled from the spec: `FLAG_FIN`, the FIN flag constant, is declared
outside the provided source files. -/
def FLAG_FIN : Nat := 1

/-- Modelled from the spec: the cancellation status code constant
`RST_STREAM_CANCEL` is declared outside the provided source files (only its
role as "a cancellation status" matters here). -/
def RST_STREAM_CANCEL : Nat := 5

/-- Modelled from the spec: the flow-control-error status code constant
`RST_STREAM_FLOW_CONTROL_ERROR` is declared outside the provided source
files (only its role as "a flow-control-error status" matters here). -/
def RST_STREAM_FLOW_CONTROL_ERROR : Nat := 7

/-- Modelled from the spec: `Header.Set` replaces the value stored for a
name (set-semantics per name), as in `net/http`-style header maps; the
`Header` type's own definition is outside the provided source files.
Headers are rendered as an association list. -/
def headerSet (hs : List (String × String)) (k v : String) :
    List (String × String) :=
  if hs.any (fun p => p.1 = k) then
    hs.map (fun p => if p.1 = k then (k, v) else p)
  else
    hs ++ [(k, v)]

/-- Modelled from the spec: `Header.Update` merges header fields into the
accumulated mapping, later values winning, with set-semantics per name
(spec section 4.3); `Header.Update` itself is outside the provided source
files. -/
def headerUpdate (hs incoming : List (String × String)) :
    List (String × String) :=
  incoming.foldl (fun acc p => headerSet acc p.1 p.2) hs

/-- A frame sent on the stream's output channel, with exactly the fields
the stream code assigns (unassigned Go fields are zero values). -/
inductive OutFrame
  | synReply (version streamID flags : Nat) (headers : List (String × String))
  | dataF (streamID : Nat) (payload : List Nat)
  | rstStream (version streamID statusCode : Nat)
deriving DecidableEq, Repr

/-- Embeds `ErrCancelled`: the error `stream.Write` returns on a stopped stream. -/
inductive WriteErr
  | cancelled
deriving DecidableEq, Repr

/-- The observable state of the `stream` struct: exactly the fields read or
written by `Write`, `WriteHeader`, `receiveFrame` and the completion phase
of `run`.  (The remaining Go fields — `conn`, `input`, `request`,
`handler`, `certificates`, `settings`, `unidirectional`, `responseSent`,
`state` — are not touched by these methods.)  `output` records the frames
sent on the stream's output channel, in send order. -/
structure Stream where
  streamID : Nat
  version : Nat
  requestBody : List Nat
  headers : List (String × String)
  responseCode : Nat
  stop : Bool
  transferWindow : Int
  queuedData : List Nat
  wroteHeader : Bool
  output : List OutFrame
deriving DecidableEq, Repr

/-- Embeds `stream.WriteHeader` from the stream source: a second call is a no-op
with a diagnostic; the first call records the code, sets the `:status` and
`:version` pseudo-headers and emits a SYN_REPLY (flags left at the zero
value). -/
def Stream.writeHeader (s : Stream) (code : Nat) : Stream :=
  if s.wroteHeader then s
  else
    let hs := headerSet (headerSet s.headers ":status" (toString code))
      ":version" "HTTP/1.1"
    { s with wroteHeader := true, responseCode := code, headers := hs,
             output := s.output ++
               [.synReply (s.version % 65536) s.streamID 0 hs] }

/-- Embeds `stream.Write` from the stream source.  Returns
`some (new state, byte count, error)`, or `none` for the Go panic that
`data[s.transferWindow:]` raises when the window is negative.  When the
input is longer than the window, the tail beyond the window is pushed onto
`queuedData` (queue `Push` appends) and only the window-sized head is sent
as a DATA frame; the window is then decremented by the sent length. -/
def Stream.write (s : Stream) (data : List Nat) :
    Option (Stream × Nat × Option WriteErr) :=
  if s.stop then some (s, 0, some .cancelled)
  else
    let s := if s.wroteHeader then s else s.writeHeader 200
    if data.length = 0 then some (s, 0, none)
    else if (data.length : Int) > s.transferWindow then
      if 0 ≤ s.transferWindow then
        let w := s.transferWindow.toNat
        let s1 := { s with queuedData := s.queuedData ++ data.drop w }
        let sent := data.take w
        some ({ s1 with transferWindow := s1.transferWindow - sent.length,
                        output := s1.output ++ [.dataF s1.streamID sent] },
              sent.length, none)
      else none
    else
      some ({ s with transferWindow := s.transferWindow - (data.length : Int),
                     output := s.output ++ [.dataF s.streamID data] },
            data.length, none)

/-- Embeds `queue.Pop(n)` from the stream source: if `n < len(q.data)` the first
`n` bytes are returned and the rest kept, otherwise the whole queue is
returned and emptied.  A negative `n` makes the Go slice `q.data[:n]`
panic (`none`).  Result: `some (popped, remaining)`. -/
def queuePop (q : List Nat) (n : Int) : Option (List Nat × List Nat) :=
  if n < (q.length : Int) then
    if 0 ≤ n then some (q.take n.toNat, q.drop n.toNat) else none
  else some (q, [])

/-- An inbound frame as dispatched by `stream.receiveFrame`'s type switch,
carrying the fields that method reads. -/
inductive InFrame
  | dataF (payload : List Nat)
  | headersF (headers : List (String × String))
  | windowUpdate (deltaWindowSize : Nat)
  | other
deriving DecidableEq, Repr

/-- Embeds `stream.receiveFrame` from the stream source.  DATA appends to the
request body; HEADERS merges into the accumulated headers; WINDOW_UPDATE
first checks `int64(delta) + transferWindow > 0x80000000` (note: strictly
greater than 2^31, not 2^31 − 1) and on overflow sends an RST_STREAM with
`RST_STREAM_FLOW_CONTROL_ERROR` without growing the window; otherwise it
grows the window, pops at most the new window from the queue and, if
anything was popped, re-sends it through `Write` (`panic(err)` on a write
error, and `panic` on an unknown frame type, both `none`). -/
def Stream.receiveFrame (s : Stream) (f : InFrame) : Option Stream :=
  match f with
  | .dataF payload => some { s with requestBody := s.requestBody ++ payload }
  | .headersF hs => some { s with headers := headerUpdate s.headers hs }
  | .windowUpdate delta =>
    if (delta : Int) + s.transferWindow > 0x80000000 then
      some { s with output := s.output ++
        [.rstStream (s.version % 65536) s.streamID
          RST_STREAM_FLOW_CONTROL_ERROR] }
    else
      let s1 := { s with transferWindow := s.transferWindow + (delta : Int) }
      match queuePop s1.queuedData s1.transferWindow with
      | none => none
      | some (data, rest) =>
        let s2 := { s1 with queuedData := rest }
        if 0 < data.length then
          match s2.write data with
          | some (s3, _, none) => some s3
          | some (_, _, some _) => none
          | none => none
        else some s2
  | .other => none

/-- The completion phase of `stream.run` (the code after the
`handler.ServeSPDY` call): if no header was ever written, set the default
`:status 200` pseudo-headers and send a SYN_REPLY with `FLAG_FIN`;
otherwise send an RST_STREAM with `RST_STREAM_CANCEL` — the else branch is
taken whenever `wroteHeader` holds, with no test of any cancellation
state. -/
def Stream.runCompletion (s : Stream) : Stream :=
  if !s.wroteHeader then
    let hs := headerSet (headerSet s.headers ":status" "200")
      ":version" "HTTP/1.1"
    { s with headers := hs,
             output := s.output ++
               [.synReply (s.version % 65536) s.streamID FLAG_FIN hs] }
  else
    { s with output := s.output ++
      [.rstStream (s.version % 65536) s.streamID RST_STREAM_CANCEL] }

/-! ### Connection constructors (spdy3/conn.go `NewConn`, and
`NewClientConn` from the unnamed source file) -/

/-- The ping/parity fields a connection constructor initializes:
`nextPingID` (next outbound ping id) and `oddity` (parity of
locally-initiated stream ids). -/
structure ConnInit where
  nextPingID : Nat
  oddity : Nat
deriving DecidableEq, Repr

/-- Embeds `spdy3.NewConn` (conn.go lines 90-177), restricted to the ping/parity
fields: servers get `nextPingID = 2, oddity = 0`, clients get
`nextPingID = 1, oddity = 1`. -/
def NewConn (isServer : Bool) : ConnInit :=
  if isServer then { nextPingID := 2, oddity := 0 }
  else { nextPingID := 1, oddity := 1 }

/-- Embeds `NewClientConn` from the unnamed source file, restricted to the
ping/parity fields: for version 3 it sets `nextPingID = 2` and
`oddity = 1`; any other version is rejected. -/
def NewClientConn (version : Nat) : Option ConnInit :=
  if version = 3 then some { nextPingID := 2, oddity := 1 }
  else none

/-! ### Concrete streams for the flow-control scenario of spec section 8 -/

/-- A server stream that has already sent its headers: outbound window
65536, nothing queued, nothing sent yet. -/
def flowScenario0 : Stream :=
  { streamID := 1, version := 3, requestBody := [],
    headers := [(":status", "200"), (":version", "HTTP/1.1")],
    responseCode := 200, stop := false, transferWindow := 65536,
    queuedData := [], wroteHeader := true, output := [] }

/-! ### Helper lemmas about `Stream.write` and `Stream.writeHeader` -/

theorem writeHeader_stop (s : Stream) (c : Nat) :
    (s.writeHeader c).stop = s.stop := by
  unfold Stream.writeHeader; split <;> rfl

theorem writeHeader_transferWindow (s : Stream) (c : Nat) :
    (s.writeHeader c).transferWindow = s.transferWindow := by
  unfold Stream.writeHeader; split <;> rfl

theorem writeHeader_queuedData (s : Stream) (c : Nat) :
    (s.writeHeader c).queuedData = s.queuedData := by
  unfold Stream.writeHeader; split <;> rfl

theorem writeHeader_streamID (s : Stream) (c : Nat) :
    (s.writeHeader c).streamID = s.streamID := by
  unfold Stream.writeHeader; split <;> rfl

/-- Behavior of `Write` on a non-stopped, headers-sent stream with more data than the
(nonnegative) window: the window-sized head is sent, the tail queued, the
window zeroed, and the head's length returned. -/
theorem write_over_window (s : Stream) (data : List Nat)
    (h0 : s.stop = false) (h1 : s.wroteHeader = true)
    (h2 : 0 ≤ s.transferWindow)
    (h3 : s.transferWindow < (data.length : Int)) :
    s.write data = some
      ({ s with
         queuedData := s.queuedData ++ data.drop s.transferWindow.toNat,
         transferWindow := 0,
         output := s.output ++
           [.dataF s.streamID (data.take s.transferWindow.toNat)] },
       s.transferWindow.toNat, none) := by
  have hlen : ¬ data.length = 0 := by omega
  have hmin : min s.transferWindow.toNat data.length =
      s.transferWindow.toNat := by omega
  have htz : s.transferWindow - (s.transferWindow.toNat : Int) = 0 := by
    omega
  simp [Stream.write, h0, h1, hlen, h2, h3, hmin, htz]

/-- Behavior of `Write` on a non-stopped, headers-sent stream whose data fits in the
window: everything is sent at once and the window decremented. -/
theorem write_within_window (s : Stream) (data : List Nat)
    (h0 : s.stop = false) (h1 : s.wroteHeader = true)
    (h2 : ¬ data.length = 0)
    (h3 : (data.length : Int) ≤ s.transferWindow) :
    s.write data = some
      ({ s with transferWindow := s.transferWindow - (data.length : Int),
                output := s.output ++ [.dataF s.streamID data] },
       data.length, none) := by
  have h4 : ¬ s.transferWindow < (data.length : Int) := not_lt.2 h3
  simp [Stream.write, h0, h1, h2, h4]

/-- As `write_over_window`, for a stream that has not yet written headers:
the implicit default-200 `WriteHeader` runs first, so the SYN_REPLY it
emits precedes the DATA frame, but window, queue and count behave the
same. -/
theorem write_over_window_first (s : Stream) (data : List Nat)
    (h0 : s.stop = false) (h1 : s.wroteHeader = false)
    (h2 : 0 ≤ s.transferWindow)
    (h3 : s.transferWindow < (data.length : Int)) :
    s.write data = some
      ({ s.writeHeader 200 with
         queuedData := s.queuedData ++ data.drop s.transferWindow.toNat,
         transferWindow := 0,
         output := (s.writeHeader 200).output ++
           [.dataF s.streamID (data.take s.transferWindow.toNat)] },
       s.transferWindow.toNat, none) := by
  have hlen : ¬ data.length = 0 := by omega
  have hmin : min s.transferWindow.toNat data.length =
      s.transferWindow.toNat := by omega
  have htz : s.transferWindow - (s.transferWindow.toNat : Int) = 0 := by
    omega
  simp [Stream.write, h0, h1, hlen, h2, h3, hmin, htz,
    writeHeader_transferWindow, writeHeader_queuedData, writeHeader_stop,
    writeHeader_streamID]

/-- As `write_within_window`, for a stream that has not yet written
headers. -/
theorem write_within_window_first (s : Stream) (data : List Nat)
    (h0 : s.stop = false) (h1 : s.wroteHeader = false)
    (h2 : ¬ data.length = 0)
    (h3 : (data.length : Int) ≤ s.transferWindow) :
    s.write data = some
      ({ s.writeHeader 200 with
         transferWindow := s.transferWindow - (data.length : Int),
         output := (s.writeHeader 200).output ++
           [.dataF s.streamID data] },
       data.length, none) := by
  have h4 : ¬ s.transferWindow < (data.length : Int) := not_lt.2 h3
  simp [Stream.write, h0, h1, h2, h4,
    writeHeader_transferWindow, writeHeader_queuedData, writeHeader_stop,
    writeHeader_streamID]

/-- Unfolding of `receiveFrame` for a WINDOW_UPDATE whose delta does not
overflow: grow the window, pop from the queue, and re-send through
`Write`. -/
theorem receiveFrame_windowUpdate_eq (s : Stream) (delta : Nat)
    (h : ¬ ((2147483648 : Int) < (delta : Int) + s.transferWindow)) :
    s.receiveFrame (.windowUpdate delta) =
      (let s1 := { s with transferWindow := s.transferWindow + (delta : Int) }
       match queuePop s1.queuedData s1.transferWindow with
       | none => none
       | some (data, rest) =>
         let s2 := { s1 with queuedData := rest }
         if 0 < data.length then
           match s2.write data with
           | some (s3, _, none) => some s3
           | some (_, _, some _) => none
           | none => none
         else some s2) := by
  simp only [Stream.receiveFrame]
  rw [if_neg h]

/-! ### Claim theorems -/

/-- Claim C1 (round-trip `parse(encode(f)) = f` for every frame variant):
the code cannot satisfy this — `WindowUpdateFrame.Bytes` allocates a
12-byte slice and assigns indices 12-15 (out of range, a runtime panic),
and `RstStreamFrame.Bytes` allocates 8 bytes and assigns indices 8-15, so
for these variants encoding a frame never even yields bytes to parse
(moreover the WINDOW_UPDATE encoder writes type code 8 while its parser
requires 9, and the parser masks the delta with `0x7f`). -/
theorem windowUpdate_encode_out_of_range :
    WindowUpdateFrame.bytes { Version := 3, StreamID := 1, DeltaWindowSize := 1 }
      = .error .indexOutOfRange ∧
    RstStreamFrame.bytes { Version := 3, Flags := 0, StreamID := 1, StatusCode := 5 }
      = .error .indexOutOfRange := by
  exact ⟨rfl, rfl⟩

/-- Claim C2, counterexample: a WINDOW_UPDATE whose delta plus the current
window equals exactly 2^31 (which exceeds the claimed cap 2^31 − 1) is NOT
answered with RST_STREAM; the window silently grows to 2^31.  Here the
window is 65536 and the delta 2^31 − 65536. -/
theorem windowUpdate_exact_cap_not_reset :
    ((2147418112 : Int) + 65536 > 2147483647) ∧
    Stream.receiveFrame
      { streamID := 2, version := 3, requestBody := [], headers := [],
        responseCode := 0, stop := false, transferWindow := 65536,
        queuedData := [], wroteHeader := true, output := [] }
      (.windowUpdate 2147418112)
    = some
      { streamID := 2, version := 3, requestBody := [], headers := [],
        responseCode := 0, stop := false, transferWindow := 2147483648,
        queuedData := [], wroteHeader := true, output := [] } := by
  exact ⟨by norm_num, rfl⟩

/-- Claim C2, amended: `receiveFrame` answers a WINDOW_UPDATE with an
RST_STREAM carrying the flow-control-error status, leaving the window and
queue untouched, exactly when the delta added to the current outbound
window would exceed 2^31 (not 2^31 − 1: the source compares against
`0x80000000` with strict greater-than). -/
theorem windowUpdate_overflow_resets (s : Stream) (delta : Nat)
    (h : (2147483648 : Int) < (delta : Int) + s.transferWindow) :
    s.receiveFrame (.windowUpdate delta) = some
      { s with output := s.output ++
          [.rstStream (s.version % 65536) s.streamID
            RST_STREAM_FLOW_CONTROL_ERROR] } := by
  simp [Stream.receiveFrame, h]

/-- Witness for `windowUpdate_overflow_resets` at a concrete stream with
window 65537 and delta 2^31 − 65536 (sum 2^31 + 1). -/
theorem windowUpdate_overflow_resets_witness :
    Stream.receiveFrame
      { streamID := 2, version := 3, requestBody := [], headers := [],
        responseCode := 0, stop := false, transferWindow := 65537,
        queuedData := [], wroteHeader := true, output := [] }
      (.windowUpdate 2147418112)
    = some
      { streamID := 2, version := 3, requestBody := [], headers := [],
        responseCode := 0, stop := false, transferWindow := 65537,
        queuedData := [], wroteHeader := true,
        output := [.rstStream 3 2 RST_STREAM_FLOW_CONTROL_ERROR] } := by
  exact windowUpdate_overflow_resets _ 2147418112 (by norm_num)

/-- Claim C3 (a well-formed 16-byte RST_STREAM parses successfully): the
code rejects every 16-byte input with `IncorrectDataLength{16, 8}` because
its size check demands a total length of 8; and on an 8-byte input that
passes the size, control-bit and type checks it reads `data[8]`, which is
out of range.  Parsing a well-formed RST_STREAM can therefore never
succeed. -/
theorem rstStream_parse_rejects_wellformed :
    RstStreamFrame.parse
      [0x80, 3, 0, 3, 0, 0, 0, 8, 0, 0, 0, 1, 0, 0, 0, 5]
      = .error (.incorrectDataLength 16 8) ∧
    RstStreamFrame.parse [0x80, 3, 0, 3, 0, 0, 0, 8]
      = .error .indexOutOfRange := by
  exact ⟨rfl, rfl⟩

/-- Claim C5, counterexample: after a handler that completed normally
(`stop = false`) on a stream whose headers were written, the completion
phase of `run` still emits an RST_STREAM with the cancellation status —
the claim says such a stream is not reset. -/
theorem runCompletion_resets_normal_completion :
    (Stream.runCompletion
      { streamID := 1, version := 3, requestBody := [],
        headers := [(":status", "200"), (":version", "HTTP/1.1")],
        responseCode := 200, stop := false, transferWindow := 65536,
        queuedData := [], wroteHeader := true, output := [] }).output
    = [.rstStream 3 1 RST_STREAM_CANCEL] := by
  exact rfl

/-- Claim C5, amended: the completion phase of `run` emits a default-200
SYN_REPLY with the FIN flag when headers were never written, and an
RST_STREAM with the cancellation status whenever headers were written —
regardless of whether the handler completed normally or was cancelled (no
cancellation state is consulted). -/
theorem runCompletion_cases (s : Stream) :
    (Stream.runCompletion s).output = s.output ++
      [if s.wroteHeader then
        OutFrame.rstStream (s.version % 65536) s.streamID RST_STREAM_CANCEL
       else
        OutFrame.synReply (s.version % 65536) s.streamID FLAG_FIN
          (headerSet (headerSet s.headers ":status" "200")
            ":version" "HTTP/1.1")] := by
  unfold Stream.runCompletion
  cases h : s.wroteHeader <;> simp [h]

/-- Claim C6 (parsers reject short inputs with a length error before
reading out of range): `SettingsFrame.Parse` reads `data[8:12]` before any
size check, so an 8-byte SETTINGS header causes an out-of-range access;
and `WindowUpdateFrame.Parse` reads `data[12]` on a 12-byte input that
passed its size check.  Neither returns the claimed length error. -/
theorem parse_out_of_range_short_input :
    SettingsFrame.parse [0x80, 3, 0, 4, 0, 0, 0, 0]
      = .error .indexOutOfRange ∧
    WindowUpdateFrame.parse [0x80, 3, 0, 9, 0, 0, 0, 8, 0, 0, 0, 1]
      = .error .indexOutOfRange := by
  exact ⟨rfl, rfl⟩

/-- Claim C7 (DATA parsing rejects inputs with the control bit set): the
check `data[0]&0x80 == 1` can never fire, so this 9-byte input with the
control bit set is accepted and decoded as a DATA frame with stream id 1
(the control bit silently dropped by the 31-bit stream-id mask). -/
theorem dataFrame_parse_accepts_control_bit :
    DataFrame.parse [0x80, 0, 0, 1, 5, 0, 0, 0, 0xAB]
      = .ok { StreamID := 1, Flags := 5, Data := [0xAB] } := by
  exact rfl

/-- Claim C8 (every connection constructor gives the outbound ping id the
parity of its role): `spdy3.NewConn` does (even 2 for servers, odd 1 for
clients), but `NewClientConn` initializes a version-3 CLIENT connection
with `nextPingID = 2`, an even id, violating the claim. -/
theorem newClientConn_even_ping_id :
    (NewConn true).nextPingID % 2 = 0 ∧
    (NewConn false).nextPingID % 2 = 1 ∧
    NewClientConn 3 = some { nextPingID := 2, oddity := 1 } := by
  exact ⟨rfl, rfl, rfl⟩

/-- Claim C9: `Write` on a stream whose stop flag is set fails immediately
with the cancellation error, returns 0, and leaves the entire stream state
unchanged (no frame enqueued, window and queue untouched). -/
theorem write_stopped_cancelled (s : Stream) (data : List Nat)
    (h : s.stop = true) :
    s.write data = some (s, 0, some .cancelled) := by
  simp [Stream.write, h]

/-- Witness for `write_stopped_cancelled` at a concrete stopped stream. -/
theorem write_stopped_cancelled_witness :
    Stream.write
      { streamID := 1, version := 3, requestBody := [], headers := [],
        responseCode := 0, stop := true, transferWindow := 65536,
        queuedData := [], wroteHeader := false, output := [] }
      [1, 2, 3]
    = some
      ({ streamID := 1, version := 3, requestBody := [], headers := [],
         responseCode := 0, stop := true, transferWindow := 65536,
         queuedData := [], wroteHeader := false, output := [] },
       0, some .cancelled) := by
  exact write_stopped_cancelled _ [1, 2, 3] rfl

/-- Claim C4: writing more bytes than the (nonnegative) window on a
non-stopped stream sends exactly the window-sized head as one DATA frame,
appends the tail to the pending queue in order, zeroes the window, and
returns the head's length; and in the spec scenario, writing any 100000
bytes to `flowScenario0` (window 65536) sends the 65536-byte head and
queues the remaining 34464 bytes, after which a WINDOW_UPDATE with delta
40000 flushes the 34464 queued bytes as a second DATA frame through the
same write path, leaving the queue empty. -/
theorem write_split_and_flush :
    (∀ (s : Stream) (data : List Nat), s.stop = false →
      s.wroteHeader = true → 0 ≤ s.transferWindow →
      s.transferWindow < (data.length : Int) →
      s.write data = some
        ({ s with
           queuedData := s.queuedData ++ data.drop s.transferWindow.toNat,
           transferWindow := 0,
           output := s.output ++
             [.dataF s.streamID (data.take s.transferWindow.toNat)] },
         s.transferWindow.toNat, none)) ∧
    (∀ (w : List Nat), w.length = 100000 →
      Stream.write flowScenario0 w = some
        ({ flowScenario0 with
           queuedData := w.drop 65536, transferWindow := 0,
           output := [.dataF 1 (w.take 65536)] }, 65536, none) ∧
      (w.take 65536).length = 65536 ∧ (w.drop 65536).length = 34464) ∧
    (∀ (v u : List Nat), v.length = 34464 →
      Stream.receiveFrame
        { flowScenario0 with
          queuedData := v, transferWindow := 0, output := [.dataF 1 u] }
        (.windowUpdate 40000)
      = some
        { flowScenario0 with
          queuedData := [], transferWindow := 5536,
          output := [.dataF 1 u, .dataF 1 v] }) := by
  refine ⟨write_over_window, ?_, ?_⟩
  · intro w hw100
    refine ⟨?_, ?_, ?_⟩
    · rw [write_over_window flowScenario0 w rfl rfl
        (by norm_num [flowScenario0]) (by norm_num [flowScenario0, hw100])]
      norm_num [flowScenario0, show Int.toNat 65536 = 65536 from rfl]
    · norm_num [List.length_take, hw100]
    · norm_num [List.length_drop, hw100]
  · intro v u hv
    rw [receiveFrame_windowUpdate_eq _ _ (by norm_num)]
    have hq : queuePop v 40000 = some (v, []) := by
      norm_num [queuePop, hv]
    have hw := write_within_window
      { flowScenario0 with
        transferWindow := (40000 : Int), queuedData := [],
        output := [.dataF 1 u] } v rfl rfl (by omega) (by norm_num [hv])
    norm_num [hv, flowScenario0] at hw
    norm_num [hq, hw, hv, flowScenario0]

/-- Witness for `write_split_and_flush`: the split at a window of 2 with
input `[7, 8, 9]`, and the scenario flush with the concrete queued bytes
`replicate 34464 55` after the 65536-byte first frame. -/
theorem write_split_and_flush_witness :
    Stream.write
      { streamID := 2, version := 3, requestBody := [], headers := [],
        responseCode := 0, stop := false, transferWindow := 2,
        queuedData := [], wroteHeader := true, output := [] } [7, 8, 9]
      = some
      ({ streamID := 2, version := 3, requestBody := [], headers := [],
         responseCode := 0, stop := false, transferWindow := 0,
         queuedData := [9], wroteHeader := true,
         output := [.dataF 2 [7, 8]] }, 2, none) ∧
    Stream.receiveFrame
      { flowScenario0 with
        queuedData := List.replicate 34464 55, transferWindow := 0,
        output := [.dataF 1 (List.replicate 65536 55)] }
      (.windowUpdate 40000)
      = some
      { flowScenario0 with
        queuedData := [], transferWindow := 5536,
        output := [.dataF 1 (List.replicate 65536 55),
                   .dataF 1 (List.replicate 34464 55)] } := by
  constructor
  · have h := write_split_and_flush.1
      { streamID := 2, version := 3, requestBody := [], headers := [],
        responseCode := 0, stop := false, transferWindow := 2,
        queuedData := [], wroteHeader := true, output := [] }
      [7, 8, 9] rfl rfl (by decide) (by decide)
    norm_num [show Int.toNat 2 = 2 from rfl] at h
    exact h
  · exact write_split_and_flush.2.2 (List.replicate 34464 55)
      (List.replicate 65536 55) (by rw [List.length_replicate])

/-- Claim C10: on a non-stopped stream with a nonnegative window, `Write`
on nonempty input returns `min (len data) window` — the length of the
immediately-sent prefix, not the number of bytes accepted overall — with a
nil error; in particular with a zero window (headers already sent) the
whole input is queued, an empty DATA frame is still emitted, and 0 is
returned with a nil error. -/
theorem write_returns_sent_prefix_length :
    (∀ (s : Stream) (data : List Nat), s.stop = false →
      0 ≤ s.transferWindow → ¬ data.length = 0 →
      Option.map (fun r => (r.2.1, r.2.2)) (s.write data)
        = some (min data.length s.transferWindow.toNat, none)) ∧
    (∀ (s : Stream) (data : List Nat), s.stop = false →
      s.wroteHeader = true → s.transferWindow = 0 → ¬ data.length = 0 →
      s.write data = some
        ({ s with queuedData := s.queuedData ++ data,
                  output := s.output ++ [.dataF s.streamID []] },
         0, none)) := by
  constructor
  · intro s data h0 h2 hlen
    cases hwh : s.wroteHeader with
    | true =>
      rcases lt_or_le s.transferWindow (data.length : Int) with h | h
      · rw [write_over_window s data h0 hwh h2 h]
        have hm : min data.length s.transferWindow.toNat
            = s.transferWindow.toNat := by omega
        simp [hm]
      · rw [write_within_window s data h0 hwh hlen h]
        have hm : min data.length s.transferWindow.toNat
            = data.length := by omega
        simp [hm]
    | false =>
      rcases lt_or_le s.transferWindow (data.length : Int) with h | h
      · rw [write_over_window_first s data h0 hwh h2 h]
        have hm : min data.length s.transferWindow.toNat
            = s.transferWindow.toNat := by omega
        simp [hm]
      · rw [write_within_window_first s data h0 hwh hlen h]
        have hm : min data.length s.transferWindow.toNat
            = data.length := by omega
        simp [hm]
  · intro s data h0 h1 htw hlen
    have h3 : s.transferWindow < (data.length : Int) := by omega
    rw [write_over_window s data h0 h1 (by omega) h3]
    simp [htw]

/-- Witness for `write_returns_sent_prefix_length`: a window of 2 with
input `[7, 8, 9]` returns 2, and a zero window with input `[4, 5]` queues
both bytes behind the existing queue, emits an empty DATA frame and
returns 0. -/
theorem write_returns_sent_prefix_length_witness :
    Option.map (fun r => (r.2.1, r.2.2))
      (Stream.write
        { streamID := 2, version := 3, requestBody := [], headers := [],
          responseCode := 0, stop := false, transferWindow := 2,
          queuedData := [], wroteHeader := true, output := [] } [7, 8, 9])
      = some (2, none) ∧
    Stream.write
      { streamID := 2, version := 3, requestBody := [], headers := [],
        responseCode := 0, stop := false, transferWindow := 0,
        queuedData := [1], wroteHeader := true, output := [] } [4, 5]
      = some
      ({ streamID := 2, version := 3, requestBody := [], headers := [],
         responseCode := 0, stop := false, transferWindow := 0,
         queuedData := [1, 4, 5], wroteHeader := true,
         output := [.dataF 2 []] }, 0, none) := by
  constructor
  · exact (write_returns_sent_prefix_length.1
      { streamID := 2, version := 3, requestBody := [], headers := [],
        responseCode := 0, stop := false, transferWindow := 2,
        queuedData := [], wroteHeader := true, output := [] }
      [7, 8, 9] rfl (by decide) (by decide)).trans
      (by norm_num [show Int.toNat 2 = 2 from rfl])
  · have h := write_returns_sent_prefix_length.2
      { streamID := 2, version := 3, requestBody := [], headers := [],
        responseCode := 0, stop := false, transferWindow := 0,
        queuedData := [1], wroteHeader := true, output := [] }
      [4, 5] rfl rfl rfl (by decide)
    simpa using h

end Spdy
